import Mathlib

/-!
# Verification of the research-agent worker process

A shallow embedding of `src/python/research_agent.py`: depth-tiered
configuration resolution (`ResearchConfig.get_settings`), the stdout
capture guard around the engine calls, validation of the engine's return
values, the Finding construction in `conduct_research`, and the JSON
success/error protocol of `main`.

Python values returned by the untyped engine are modelled by `PyVal`;
machine-level concerns (the actual byte stream, asyncio scheduling) are
abstracted into explicit state passing: writes to the process's standard
output stream go to `ProcState.realOut` or to the capture buffer depending
on where `sys.stdout` currently points, exactly as the redirection in the
source routes them.
-/

namespace ResearchAgent

/-- A dynamically-typed Python value, as returned by the engine's
`write_report` / `get_source_urls` calls. -/
inductive PyVal where
  | str (s : String)
  | int (n : Int)
  | listv (xs : List PyVal)
  | pynone
deriving Repr

/-- Python truthiness (`if url`): empty string, zero, empty list and
`None` are falsy. -/
def PyVal.truthy : PyVal → Bool
  | .str s => !s.isEmpty
  | .int n => n != 0
  | .listv xs => !xs.isEmpty
  | .pynone => false

/-- `repr` of a value, used by `str` on non-string values. -/
def PyVal.pyRepr : PyVal → String
  | .str s => "\x27" ++ s ++ "\x27"
  | .int n => toString n
  | .pynone => "None"
  | .listv xs => "[" ++ String.intercalate ", " (xs.attach.map fun x => x.1.pyRepr) ++ "]"
decreasing_by
  have := List.sizeOf_lt_of_mem x.2
  simp only [PyVal.listv.sizeOf_spec]
  omega

/-- Python `str(v)`: identity on strings, `repr`-like otherwise. -/
def PyVal.pyStr : PyVal → String
  | .str s => s
  | v => v.pyRepr

/-- Python `type(v)` as it prints inside an f-string, e.g.
`<class 'str'>`. -/
def PyVal.typeName : PyVal → String
  | .str _ => "<class \x27str\x27>"
  | .int _ => "<class \x27int\x27>"
  | .listv _ => "<class \x27list\x27>"
  | .pynone => "<class \x27NoneType\x27>"

/-- One depth level's settings record (`ResearchConfig.DEPTH_SETTINGS`
values). -/
structure Settings where
  max_sources : Nat
  max_iterations : Nat
  report_type : String
deriving Repr, DecidableEq

/-- The `"moderate"` entry of `DEPTH_SETTINGS` (also the default row that
`dict.get` falls back to). -/
def moderateSettings : Settings :=
  { max_sources := 10, max_iterations := 4, report_type := "research_report" }

/-- `ResearchConfig.DEPTH_SETTINGS`: the depth-keyed dictionary. -/
def DEPTH_SETTINGS : List (String × Settings) :=
  [("quick", { max_sources := 5, max_iterations := 2, report_type := "research_report" }),
   ("moderate", moderateSettings),
   ("deep", { max_sources := 20, max_iterations := 6, report_type := "detailed_report" })]

/-- `ResearchConfig.get_settings`:
`DEPTH_SETTINGS.get(depth, DEPTH_SETTINGS["moderate"])`. -/
def get_settings (depth : String) : Settings :=
  (DEPTH_SETTINGS.lookup depth).getD moderateSettings

/-- One entry of a Finding's `sources` list. -/
structure Source where
  url : String
  title : String
deriving Repr, DecidableEq

/-- A Finding's `metadata` dictionary. The three optional fields are
present only on the POC (fallback) path. -/
structure Metadata where
  maxSources : Nat
  maxIterations : Nat
  reportType : String
  mode : Option String
  status : Option String
  warning : Option String
deriving Repr, DecidableEq

/-- The success payload built by `conduct_research`. -/
structure Finding where
  query : String
  depth : String
  summary : String
  fullReport : String
  sources : List Source
  sourcesAnalyzed : Nat
  metadata : Metadata
deriving Repr, DecidableEq

/-- A Python exception as far as this program observes one: `ValueError`
raised by the validation in `conduct_research`, or any exception the
engine itself raises (carried with its type name, for
`type(e).__name__`). -/
inductive PyExc where
  | valueError (msg : String)
  | engine (tyName msg : String)
deriving Repr, DecidableEq

/-- `str(e)`. -/
def PyExc.message : PyExc → String
  | .valueError m => m
  | .engine _ m => m

/-- `type(e).__name__`. -/
def PyExc.typeName : PyExc → String
  | .valueError _ => "ValueError"
  | .engine t _ => t

/-- The fallback Finding's `summary` (line 123 of the source). -/
def pocSummary : String :=
  "⚠️ POC MODE: GPT Researcher not installed. This is TEST DATA."

/-- The fallback Finding's `fullReport` f-string (lines 124-133). -/
def pocFullReport (instructions depth : String) : String :=
  "# POC Mode Research Report\n\n" ++
  "Query: " ++ instructions ++ "\n" ++
  "Depth: " ++ depth ++ "\n\n" ++
  "⚠️ This is simulated data because GPT Researcher is not installed.\n" ++
  "To enable real research:\n" ++
  "1. Ensure Python venv is activated\n" ++
  "2. Run: pip install gpt-researcher\n" ++
  "3. Set OPENAI_API_KEY in .env\n"

/-- The dictionary returned on the `ImportError` fallback path of
`conduct_research` (lines 120-147). -/
def pocFinding (instructions depth : String) : Finding :=
  let config := get_settings depth
  { query := instructions
    depth := depth
    summary := pocSummary
    fullReport := pocFullReport instructions depth
    sources := [{ url := "https://example.com/source1", title := "Example Source 1" },
                { url := "https://example.com/source2", title := "Example Source 2" }]
    sourcesAnalyzed := 2
    metadata :=
      { maxSources := config.max_sources
        maxIterations := config.max_iterations
        reportType := "poc_mode"
        mode := some "POC"
        status := some "test"
        warning := some "GPT Researcher not installed - using test data" } }

/-- `summary` construction (line 212):
`report[:500] + "..." if len(report) > 500 else report`. -/
def make_summary (report : String) : String :=
  if report.length > 500 then report.take 500 ++ "..." else report

/-- The `sources` list comprehension (lines 214-221): enumerate the list
truncated to `max_sources`, keep the truthy URLs, and title each kept
entry by its position in the truncated list. -/
def build_sources (sources : List PyVal) (maxSources : Nat) : List Source :=
  ((sources.take maxSources).enum.filter (fun p => p.2.truthy)).map
    (fun p => { url := p.2.pyStr, title := "Source " ++ toString (p.1 + 1) })

/-- The type validation at lines 200-206: the report must be a string;
`None` sources become the empty list; non-list sources are a
`ValueError`. -/
def validate_results (report sources : PyVal) :
    Except PyExc (String × List PyVal) :=
  match report with
  | .str r =>
    match sources with
    | .pynone => .ok (r, [])
    | .listv xs => .ok (r, xs)
    | s => .error (.valueError ("Research sources must be list, got " ++ s.typeName))
  | r => .error (.valueError ("Research report must be string, got " ++ r.typeName))

/-- The sources list as claim C3 words it (spec side of the comparison):
first discard falsy/empty URL entries, then truncate the remainder to
`maxSources`, and give the k-th element of the result the title
"Source k" (1-based). -/
def claimedSources (sources : List PyVal) (maxSources : Nat) : List Source :=
  ((sources.filter PyVal.truthy).take maxSources).enum.map
    (fun p => { url := p.2.pyStr, title := "Source " ++ toString (p.1 + 1) })

/-- The sources list as the amended claim words it: truncate to
`maxSources` first, then keep only the truthy entries, titling each kept
entry by its 1-based position within the truncated pre-filter list (so
positions of discarded entries are skipped). -/
def amendedSources (sources : List PyVal) (maxSources : Nat) : List Source :=
  (List.range (sources.take maxSources).length).filterMap
    (fun i =>
      match (sources.take maxSources).get? i with
      | some u =>
        if u.truthy then
          some { url := u.pyStr, title := "Source " ++ toString (i + 1) }
        else none
      | none => none)

/-- Engine URL list exhibiting the C3 discrepancy: a falsy first entry
followed by five real URLs, against `maxSources = 5`. -/
def c3urls : List PyVal :=
  [.str "", .str "u1", .str "u2", .str "u3", .str "u4", .str "u5"]

/-! ## Process output state and the stdout capture guard -/

/-- A structural JSON value; `json.dumps` output is modelled as one such
document rather than as raw bytes. -/
inductive JVal where
  | jstr (s : String)
  | jnum (n : Int)
  | jarr (xs : List JVal)
  | jobj (fields : List (String × JVal))
deriving Repr

/-- Where `sys.stdout` currently points: the process's real stream, or
the `StringIO` capture buffer installed by the guard. -/
inductive StreamTarget where
  | real
  | buffer
deriving Repr, DecidableEq

/-- An item reaching an output stream: a bare third-party write, or a
JSON document printed by `main` (with its pretty-print flag,
`indent=2`). -/
inductive OutItem where
  | raw (s : String)
  | doc (j : JVal) (pretty : Bool)
deriving Repr

/-- The mutable process state the program touches: the current
`sys.stdout` target, what has reached the real stdout, the capture
buffer's contents, and the log records emitted to stderr as
`(severity, message)` pairs (DEBUG = 10, WARNING = 30, ERROR = 40). -/
structure ProcState where
  stdoutTarget : StreamTarget
  realOut : List OutItem
  bufferOut : List String
  log : List (Nat × String)
deriving Repr

/-- State at process start: stdout is the real stream and nothing has
been written anywhere. -/
def initState : ProcState :=
  { stdoutTarget := .real, realOut := [], bufferOut := [], log := [] }

/-- A bare `print`/`write` of a string to `sys.stdout`: it lands wherever
the target currently points. -/
def writeStdout (st : ProcState) (s : String) : ProcState :=
  match st.stdoutTarget with
  | .real => { st with realOut := st.realOut ++ [.raw s] }
  | .buffer => { st with bufferOut := st.bufferOut ++ [s] }

/-- `print(json.dumps(...))` to `sys.stdout` (the error envelopes go to
stderr and are modelled separately in `MainOutput`). -/
def writeDocStdout (st : ProcState) (j : JVal) (pretty : Bool) : ProcState :=
  match st.stdoutTarget with
  | .real => { st with realOut := st.realOut ++ [.doc j pretty] }
  | .buffer => st

/-- Append a log record (the `logging` calls all target stderr). -/
def logMsg (st : ProcState) (sev : Nat) (msg : String) : ProcState :=
  { st with log := st.log ++ [(sev, msg)] }

/-- Boolean test that `pat` occurs as a contiguous run inside `l`
(Python's `pat in text` on strings, on the character lists). -/
def listInfixB (pat : List Char) : List Char → Bool
  | [] => pat.isEmpty
  | c :: rest => pat.isPrefixOf (c :: rest) || listInfixB pat rest

/-- Python's substring containment `pat in s`. -/
def strContains (s pat : String) : Bool :=
  listInfixB pat.toList s.toList

/-- The failure tokens scanned for at line 193. -/
def errorTokens : List String := ["error", "failed", "timeout", "exception"]

/-- `any(err in suppressed_output.lower() for err in [...])`. -/
def containsErrToken (captured : String) : Bool :=
  errorTokens.any (fun t => strContains captured.toLower t)

/-- What the engine-call region does, seen from outside: the strings it
prints to `sys.stdout` while running, and its outcome (a value or a
raised exception). The body is opaque Python code, so it is modelled by
this observable behaviour. -/
structure GuardBody (α : Type) where
  writes : List String
  outcome : Except PyExc α

/-- The stdout capture region of `conduct_research` (lines 155-198):
save `sys.stdout`, point it at a fresh `StringIO`, run the body (whose
writes now land in the buffer), on an exception log the captured output
at ERROR before re-raising, and in `finally` restore the saved stream
and classify any captured output by the failure-token scan — WARNING on
a match, DEBUG otherwise. The classification only logs; the body's
outcome is returned (or re-raised) unchanged. -/
def runGuarded (st : ProcState) (body : GuardBody α) :
    Except PyExc α × ProcState :=
  let old := st.stdoutTarget
  let entered : ProcState := { st with stdoutTarget := .buffer, bufferOut := [] }
  let ran := body.writes.foldl writeStdout entered
  let captured := String.join ran.bufferOut
  let logged :=
    match body.outcome with
    | .error _ =>
      if !(captured.trim.isEmpty) then
        logMsg ran 40 ("Research failed with suppressed output: " ++ captured.take 500)
      else ran
    | .ok _ => ran
  let restored : ProcState := { logged with stdoutTarget := old }
  let classified :=
    if !(captured.trim.isEmpty) then
      if containsErrToken captured then
        logMsg restored 30 ("Suppressed output contained errors: " ++ captured.take 200)
      else
        logMsg restored 10 ("Suppressed output: " ++ captured.take 200)
    else restored
  (body.outcome, classified)

/-! ## conduct_research -/

/-- What the engine produces for one run, when it is importable: its
stdout chatter and either a raised exception or the pair
(`write_report()` result, `get_source_urls()` result), both untyped. -/
structure EngineBehavior where
  writes : List String
  outcome : Except PyExc (PyVal × PyVal)

/-- Whether `from gpt_researcher import GPTResearcher` succeeds, and the
engine's behaviour when it does. -/
inductive EngineCap where
  | unavailable (importMsg : String)
  | available (b : EngineBehavior)

def EngineCap.isAvailable : EngineCap → Bool
  | .unavailable _ => false
  | .available _ => true

/-- The `findings` dictionary assembled at lines 209-228 from the
validated report `r` and the validated (pre-truncation) source list
`srcs`. -/
def realFinding (instructions depth r : String) (srcs : List PyVal) : Finding :=
  let config := get_settings depth
  { query := instructions
    depth := depth
    summary := make_summary r
    fullReport := r
    sources := build_sources srcs config.max_sources
    sourcesAnalyzed := srcs.length
    metadata :=
      { maxSources := config.max_sources
        maxIterations := config.max_iterations
        reportType := config.report_type
        mode := none
        status := none
        warning := none } }

/-- `conduct_research(instructions, depth)` (lines 76-230): the
`ImportError` fallback returns the labelled POC dictionary; otherwise the
engine runs inside the capture guard, the results are validated, and the
Finding is assembled. -/
def conduct_research (instructions depth : String) (engine : EngineCap)
    (st : ProcState) : Except PyExc Finding × ProcState :=
  match engine with
  | .unavailable importMsg =>
    let st1 := logMsg st 30
      ("GPT Researcher not available: " ++ importMsg ++ ". Running in POC mode.")
    (.ok (pocFinding instructions depth), st1)
  | .available b =>
    let guarded := runGuarded st { writes := b.writes, outcome := b.outcome }
    let res : Except PyExc Finding :=
      match guarded.1 with
      | .error e => .error e
      | .ok (report, sources) =>
        match validate_results report sources with
        | .error e => .error e
        | .ok (r, srcs) => .ok (realFinding instructions depth r srcs)
    (res, guarded.2)

/-! ## JSON encoding of the payloads -/

def sourceJson (s : Source) : JVal :=
  .jobj [("url", .jstr s.url), ("title", .jstr s.title)]

/-- The `metadata` dictionary as JSON (optional POC keys appear only when
set, in source order). -/
def metadataJson (m : Metadata) : JVal :=
  .jobj ([("maxSources", .jnum m.maxSources),
          ("maxIterations", .jnum m.maxIterations),
          ("reportType", .jstr m.reportType)] ++
    (match m.mode with | some v => [("mode", JVal.jstr v)] | none => []) ++
    (match m.status with | some v => [("status", JVal.jstr v)] | none => []) ++
    (match m.warning with | some v => [("warning", JVal.jstr v)] | none => []))

/-- `json.dumps(findings, ...)`'s document. -/
def findingJson (f : Finding) : JVal :=
  .jobj [("query", .jstr f.query),
         ("depth", .jstr f.depth),
         ("summary", .jstr f.summary),
         ("fullReport", .jstr f.fullReport),
         ("sources", .jarr (f.sources.map sourceJson)),
         ("sourcesAnalyzed", .jnum f.sourcesAnalyzed),
         ("metadata", metadataJson f.metadata)]

/-! ## main -/

/-- The inputs `main` observes: `sys.argv` (element 0 is the program
name), `os.getenv("OPENAI_API_KEY")`, and the engine capability. -/
structure MainInput where
  argv : List String
  openaiApiKey : Option String
  engine : EngineCap

/-- Python truthiness of `os.getenv(...)`: `None` and `""` are falsy. -/
def envTruthy : Option String → Bool
  | some s => !s.isEmpty
  | none => false

/-- What one run of `main` produces: the final process state (whose
`realOut` is everything that reached the real stdout), the JSON documents
printed to stderr, the exit code, and whether the engine was invoked
(`GPTResearcher(...)` constructed). -/
structure MainOutput where
  finalState : ProcState
  stderrDocs : List JVal
  exitCode : Nat
  engineInvoked : Bool

/-- The error envelope for missing arguments (lines 238-242). -/
def usageErrorJson : JVal :=
  .jobj [("error", .jstr "Missing required arguments"),
         ("usage", .jstr "python research_agent.py \x27<instructions>\x27 \x27<depth>\x27"),
         ("example", .jstr "python research_agent.py \x27Research backgammon\x27 \x27moderate\x27")]

/-- The error envelope for an invalid depth (lines 251-254). -/
def invalidDepthJson (depth : String) : JVal :=
  .jobj [("error", .jstr ("Invalid depth: " ++ depth)),
         ("valid_depths", .jarr [.jstr "quick", .jstr "moderate", .jstr "deep"])]

/-- The error envelope for a missing API key (lines 260-263). -/
def missingKeyJson : JVal :=
  .jobj [("error", .jstr "OPENAI_API_KEY environment variable not set"),
         ("solution", .jstr "Set OPENAI_API_KEY in .env file")]

/-- The runtime failure envelope (lines 278-282). -/
def runtimeErrorJson (e : PyExc) : JVal :=
  .jobj [("error", .jstr "Research failed"),
         ("message", .jstr e.message),
         ("type", .jstr e.typeName)]

/-- `main()` (lines 233-284): validate the argument count, the depth and
the API key in that order (each failure prints one envelope to stderr and
exits 1); then run `conduct_research` and either pretty-print the one
Finding document to stdout with exit 0 or print one runtime envelope to
stderr with exit 1. -/
def main (inp : MainInput) : MainOutput :=
  if inp.argv.length < 3 then
    { finalState := initState, stderrDocs := [usageErrorJson],
      exitCode := 1, engineInvoked := false }
  else
    let instructions := inp.argv.getD 1 ""
    let depth := inp.argv.getD 2 ""
    if depth ∉ (["quick", "moderate", "deep"] : List String) then
      { finalState := initState, stderrDocs := [invalidDepthJson depth],
        exitCode := 1, engineInvoked := false }
    else if !(envTruthy inp.openaiApiKey) then
      { finalState := initState, stderrDocs := [missingKeyJson],
        exitCode := 1, engineInvoked := false }
    else
      let run := conduct_research instructions depth inp.engine initState
      match run.1 with
      | .ok findings =>
        { finalState := writeDocStdout run.2 (findingJson findings) true,
          stderrDocs := [], exitCode := 0,
          engineInvoked := inp.engine.isAvailable }
      | .error e =>
        { finalState := run.2, stderrDocs := [runtimeErrorJson e],
          exitCode := 1, engineInvoked := inp.engine.isAvailable }

/-! ## Helper lemmas -/

@[simp] theorem logMsg_stdoutTarget (st : ProcState) (sev : Nat) (msg : String) :
    (logMsg st sev msg).stdoutTarget = st.stdoutTarget := rfl

@[simp] theorem logMsg_realOut (st : ProcState) (sev : Nat) (msg : String) :
    (logMsg st sev msg).realOut = st.realOut := rfl

theorem writeStdout_buffer_fields (st : ProcState) (h : st.stdoutTarget = .buffer)
    (s : String) :
    (writeStdout st s).stdoutTarget = .buffer ∧
    (writeStdout st s).realOut = st.realOut := by
  simp [writeStdout, h]

theorem foldl_writeStdout_fields (ws : List String) (st : ProcState)
    (h : st.stdoutTarget = .buffer) :
    (ws.foldl writeStdout st).stdoutTarget = .buffer ∧
    (ws.foldl writeStdout st).realOut = st.realOut := by
  induction ws generalizing st with
  | nil => exact ⟨h, rfl⟩
  | cons w ws ih =>
    obtain ⟨h1, h2⟩ := writeStdout_buffer_fields st h w
    simp only [List.foldl_cons]
    obtain ⟨a, b⟩ := ih (writeStdout st w) h1
    exact ⟨a, b.trans h2⟩

theorem runGuarded_outcome (st : ProcState) (body : GuardBody α) :
    (runGuarded st body).1 = body.outcome := rfl

theorem runGuarded_state (st : ProcState) (body : GuardBody α) :
    (runGuarded st body).2.stdoutTarget = st.stdoutTarget ∧
    (runGuarded st body).2.realOut = st.realOut := by
  obtain ⟨ht, hr⟩ := foldl_writeStdout_fields body.writes
    { st with stdoutTarget := .buffer, bufferOut := [] } rfl
  simp only [runGuarded]
  rcases body.outcome with e | v <;>
    · split <;> split <;> simp_all

theorem conduct_research_state (i d : String) (e : EngineCap) (st : ProcState) :
    ((conduct_research i d e st).2).stdoutTarget = st.stdoutTarget ∧
    ((conduct_research i d e st).2).realOut = st.realOut := by
  cases e with
  | unavailable m => simp [conduct_research]
  | available b => exact runGuarded_state st { writes := b.writes, outcome := b.outcome }

theorem get_settings_quick :
    get_settings "quick" =
      { max_sources := 5, max_iterations := 2, report_type := "research_report" } := rfl

theorem get_settings_moderate : get_settings "moderate" = moderateSettings := rfl

theorem get_settings_deep :
    get_settings "deep" =
      { max_sources := 20, max_iterations := 6, report_type := "detailed_report" } := rfl

theorem get_settings_unknown (d : String)
    (h1 : d ≠ "quick") (h2 : d ≠ "moderate") (h3 : d ≠ "deep") :
    get_settings d = moderateSettings := by
  have e1 : (d == "quick") = false := beq_eq_false_iff_ne.mpr h1
  have e2 : (d == "moderate") = false := beq_eq_false_iff_ne.mpr h2
  have e3 : (d == "deep") = false := beq_eq_false_iff_ne.mpr h3
  simp [get_settings, DEPTH_SETTINGS, List.lookup, e1, e2, e3]

/-- `get_settings` only ever returns one of the three fixed rows. -/
theorem get_settings_cases (d : String) :
    get_settings d = get_settings "quick" ∨
    get_settings d = moderateSettings ∨
    get_settings d = get_settings "deep" := by
  by_cases h1 : d = "quick"
  · exact Or.inl (by rw [h1])
  by_cases h2 : d = "moderate"
  · exact Or.inr (Or.inl (by rw [h2]; rfl))
  by_cases h3 : d = "deep"
  · exact Or.inr (Or.inr (by rw [h3]))
  · exact Or.inr (Or.inl (get_settings_unknown d h1 h2 h3))

theorem get_settings_max_sources_ge_two (d : String) :
    2 ≤ (get_settings d).max_sources := by
  rcases get_settings_cases d with h | h | h <;> rw [h] <;> decide

theorem get_settings_report_type_cases (d : String) :
    (get_settings d).report_type = "research_report" ∨
    (get_settings d).report_type = "detailed_report" := by
  rcases get_settings_cases d with h | h | h <;> rw [h]
  · exact Or.inl rfl
  · exact Or.inl rfl
  · exact Or.inr rfl

theorem listInfixB_iff (pat l : List Char) : listInfixB pat l = true ↔ pat <:+: l := by
  induction l with
  | nil =>
    simp only [listInfixB, List.isEmpty_iff, List.infix_nil]
  | cons c rest ih =>
    simp only [listInfixB, Bool.or_eq_true, List.isPrefixOf_iff_prefix, ih]
    exact List.infix_cons_iff.symm

theorem strContains_append_of_right (s t pat : String)
    (h : strContains t pat = true) : strContains (s ++ t) pat = true := by
  rw [strContains, listInfixB_iff] at h ⊢
  have : t.toList <:+: (s ++ t).toList := by
    show t.data <:+: (s ++ t).data
    rw [String.data_append]
    exact (List.suffix_append s.data t.data).isInfix
  exact h.trans this

theorem strContains_append_of_left (s t pat : String)
    (h : strContains s pat = true) : strContains (s ++ t) pat = true := by
  rw [strContains, listInfixB_iff] at h ⊢
  have : s.toList <:+: (s ++ t).toList := by
    show s.data <:+: (s ++ t).data
    rw [String.data_append]
    exact (List.prefix_append s.data t.data).isInfix
  exact h.trans this

theorem build_sources_length_le_max (urls : List PyVal) (m : Nat) :
    (build_sources urls m).length ≤ m := by
  unfold build_sources
  rw [List.length_map]
  calc ((urls.take m).enum.filter (fun p => p.2.truthy)).length
      ≤ (urls.take m).enum.length := List.length_filter_le _ _
    _ = (urls.take m).length := List.enum_length
    _ ≤ m := by rw [List.length_take]; exact Nat.min_le_left _ _

theorem build_sources_length_le_analyzed (urls : List PyVal) (m : Nat) :
    (build_sources urls m).length ≤ urls.length := by
  unfold build_sources
  rw [List.length_map]
  calc ((urls.take m).enum.filter (fun p => p.2.truthy)).length
      ≤ (urls.take m).enum.length := List.length_filter_le _ _
    _ = (urls.take m).length := List.enum_length
    _ ≤ urls.length := by rw [List.length_take]; exact Nat.min_le_right _ _

theorem enumFrom_filter_map_eq (g : Nat × PyVal → Source) (L : List PyVal) (n : Nat) :
    ((L.enumFrom n).filter (fun p => p.2.truthy)).map g =
    (List.range L.length).filterMap
      (fun i =>
        match L.get? i with
        | some u => if u.truthy then some (g (n + i, u)) else none
        | none => none) := by
  induction L generalizing n with
  | nil => rfl
  | cons u rest ih =>
    rw [List.enumFrom_cons, List.length_cons, List.range_succ_eq_map,
      List.filterMap_cons, List.filterMap_map]
    have hrw :
        ((fun i =>
          match (u :: rest).get? i with
          | some v => if v.truthy then some (g (n + i, v)) else none
          | none => none) ∘ Nat.succ) =
        (fun i =>
          match rest.get? i with
          | some v => if v.truthy then some (g (n + 1 + i, v)) else none
          | none => none) := by
      funext i
      simp only [Function.comp_apply, List.get?_cons_succ]
      have : n + Nat.succ i = n + 1 + i := by omega
      rw [this]
    rw [hrw, ← ih]
    by_cases hu : u.truthy
    · simp [hu]
    · simp [hu]

theorem build_sources_eq_amended (urls : List PyVal) (m : Nat) :
    build_sources urls m = amendedSources urls m := by
  unfold build_sources amendedSources
  have h := enumFrom_filter_map_eq
    (fun p => { url := p.2.pyStr, title := "Source " ++ toString (p.1 + 1) })
    (urls.take m) 0
  rw [List.enum_eq_enumFrom, h]
  congr 1
  funext i
  simp only [Nat.zero_add]

theorem conduct_research_unavailable (i d m : String) (st : ProcState) :
    (conduct_research i d (.unavailable m) st).1 = .ok (pocFinding i d) := rfl

theorem conduct_research_available_fst (i d : String) (b : EngineBehavior)
    (st : ProcState) :
    (conduct_research i d (.available b) st).1 =
      match b.outcome with
      | .error e => .error e
      | .ok (report, sources) =>
        match validate_results report sources with
        | .error e => .error e
        | .ok (r, srcs) => .ok (realFinding i d r srcs) := rfl

theorem conduct_research_available_ok_inv (i d : String) (b : EngineBehavior)
    (st : ProcState) (f : Finding)
    (h : (conduct_research i d (.available b) st).1 = .ok f) :
    ∃ report sources r srcs, b.outcome = .ok (report, sources) ∧
      validate_results report sources = .ok (r, srcs) ∧
      f = realFinding i d r srcs := by
  rw [conduct_research_available_fst] at h
  split at h
  · cases h
  · rename_i report sources hb
    split at h
    · cases h
    · rename_i r srcs hv
      cases h
      exact ⟨report, sources, r, srcs, hb, hv, rfl⟩

theorem writeDocStdout_real (st : ProcState) (h : st.stdoutTarget = .real)
    (j : JVal) (p : Bool) :
    (writeDocStdout st j p).realOut = st.realOut ++ [.doc j p] := by
  simp [writeDocStdout, h]

theorem main_usage (inp : MainInput) (h1 : inp.argv.length < 3) :
    main inp = { finalState := initState, stderrDocs := [usageErrorJson],
                 exitCode := 1, engineInvoked := false } := by
  simp only [main, if_pos h1]

theorem main_invalid_depth (inp : MainInput) (h1 : ¬ inp.argv.length < 3)
    (h2 : inp.argv.getD 2 "" ∉ (["quick", "moderate", "deep"] : List String)) :
    main inp = { finalState := initState,
                 stderrDocs := [invalidDepthJson (inp.argv.getD 2 "")],
                 exitCode := 1, engineInvoked := false } := by
  simp only [main, if_neg h1, if_pos h2]

theorem main_missing_key (inp : MainInput) (h1 : ¬ inp.argv.length < 3)
    (h2 : inp.argv.getD 2 "" ∈ (["quick", "moderate", "deep"] : List String))
    (h3 : envTruthy inp.openaiApiKey = false) :
    main inp = { finalState := initState, stderrDocs := [missingKeyJson],
                 exitCode := 1, engineInvoked := false } := by
  simp only [main, if_neg h1, if_neg (not_not_intro h2)]
  rw [if_pos (by simp [h3])]

theorem main_run_ok (inp : MainInput) (h1 : ¬ inp.argv.length < 3)
    (h2 : inp.argv.getD 2 "" ∈ (["quick", "moderate", "deep"] : List String))
    (h3 : envTruthy inp.openaiApiKey = true) (f : Finding)
    (hok : (conduct_research (inp.argv.getD 1 "") (inp.argv.getD 2 "")
        inp.engine initState).1 = .ok f) :
    main inp =
      { finalState := writeDocStdout
          (conduct_research (inp.argv.getD 1 "") (inp.argv.getD 2 "")
            inp.engine initState).2 (findingJson f) true,
        stderrDocs := [], exitCode := 0,
        engineInvoked := inp.engine.isAvailable } := by
  simp only [main, if_neg h1, if_neg (not_not_intro h2)]
  rw [if_neg (by simp [h3])]
  simp only [hok]

theorem main_run_err (inp : MainInput) (h1 : ¬ inp.argv.length < 3)
    (h2 : inp.argv.getD 2 "" ∈ (["quick", "moderate", "deep"] : List String))
    (h3 : envTruthy inp.openaiApiKey = true) (e : PyExc)
    (herr : (conduct_research (inp.argv.getD 1 "") (inp.argv.getD 2 "")
        inp.engine initState).1 = .error e) :
    main inp =
      { finalState := (conduct_research (inp.argv.getD 1 "") (inp.argv.getD 2 "")
          inp.engine initState).2,
        stderrDocs := [runtimeErrorJson e], exitCode := 1,
        engineInvoked := inp.engine.isAvailable } := by
  simp only [main, if_neg h1, if_neg (not_not_intro h2)]
  rw [if_neg (by simp [h3])]
  simp only [herr]

/-! ## Claim theorems -/

/-- C5: `get_settings` (the depth resolver) is total with no failure mode:
each depth in quick/moderate/deep maps to its fixed documented settings record
(5/2/research_report, 10/4/research_report, 20/6/detailed_report), and every
absent or unrecognized input deterministically yields the moderate record, so
`get_settings "bogus" = get_settings "moderate"`. -/
theorem c5_resolve_total_with_moderate_default :
    get_settings "quick" =
      { max_sources := 5, max_iterations := 2, report_type := "research_report" } ∧
    get_settings "moderate" =
      { max_sources := 10, max_iterations := 4, report_type := "research_report" } ∧
    get_settings "deep" =
      { max_sources := 20, max_iterations := 6, report_type := "detailed_report" } ∧
    (∀ d : String, d ∉ (["quick", "moderate", "deep"] : List String) →
      get_settings d = get_settings "moderate") ∧
    get_settings "bogus" = get_settings "moderate" := by
  refine ⟨rfl, rfl, rfl, ?_, rfl⟩
  intro d hd
  simp only [List.mem_cons, List.not_mem_nil, or_false, not_or] at hd
  obtain ⟨h1, h2, h3⟩ := hd
  exact get_settings_unknown d h1 h2 h3

/-- C7: the output-isolation guard restores the original stdout target after
the guarded region on every exit path — for all bodies, whether the outcome is
a normal return or a raised exception, including bodies that write and then
raise — nothing the body writes reaches the real output stream, and the
post-hoc classification of the captured content never alters the call's
result. -/
theorem c7_guard_restores_stdout (α : Type) (st : ProcState) (body : GuardBody α) :
    (runGuarded st body).2.stdoutTarget = st.stdoutTarget ∧
    (runGuarded st body).2.realOut = st.realOut ∧
    (runGuarded st body).1 = body.outcome :=
  ⟨(runGuarded_state st body).1, (runGuarded_state st body).2, rfl⟩

/-- C10: the fallback Finding's metadata takes maxSources and maxIterations
from the settings resolved for the requested depth, but its reportType is the
fixed literal "poc_mode" for every depth — never the resolved depth's report
type. -/
theorem c10_poc_report_type_fixed (instructions depth importMsg : String)
    (st : ProcState) :
    (conduct_research instructions depth (.unavailable importMsg) st).1 =
      .ok (pocFinding instructions depth) ∧
    (pocFinding instructions depth).metadata.maxSources =
      (get_settings depth).max_sources ∧
    (pocFinding instructions depth).metadata.maxIterations =
      (get_settings depth).max_iterations ∧
    (pocFinding instructions depth).metadata.reportType = "poc_mode" ∧
    (pocFinding instructions depth).metadata.reportType ≠
      (get_settings depth).report_type := by
  refine ⟨rfl, rfl, rfl, rfl, ?_⟩
  intro hcontra
  have hpoc : (pocFinding instructions depth).metadata.reportType = "poc_mode" := rfl
  rw [hpoc] at hcontra
  rcases get_settings_report_type_cases depth with h | h <;> rw [h] at hcontra <;>
    exact absurd hcontra (by decide)

set_option maxRecDepth 4096 in
/-- C2 counterexample: the claim quantifies over the fallback path too, but
there the code returns a Finding whose fullReport is well under 500 characters
while its summary is the fixed POC banner — not the fullReport verbatim. -/
theorem c2_counterexample :
    (conduct_research "x" "quick" (.unavailable "m") initState).1 =
      Except.ok (pocFinding "x" "quick") ∧
    (pocFinding "x" "quick").fullReport.length ≤ 500 ∧
    (pocFinding "x" "quick").summary ≠ (pocFinding "x" "quick").fullReport := by
  exact ⟨rfl, by decide, by decide⟩

/-- C2 amended: for every Finding produced through the real-engine path the
summary equals the fullReport verbatim when the fullReport has at most 500
characters, and otherwise equals its first 500 characters followed by "...";
on the fallback path the summary is instead the fixed POC banner. -/
theorem c2_summary_truncation (instructions depth : String) (b : EngineBehavior)
    (st : ProcState) (f : Finding)
    (h : (conduct_research instructions depth (.available b) st).1 = .ok f) :
    (f.fullReport.length ≤ 500 → f.summary = f.fullReport) ∧
    (500 < f.fullReport.length → f.summary = f.fullReport.take 500 ++ "...") := by
  obtain ⟨report, sources, r, srcs, hb, hv, hf⟩ :=
    conduct_research_available_ok_inv instructions depth b st f h
  subst hf
  constructor
  · intro hle
    have hle2 : r.length ≤ 500 := hle
    show make_summary r = r
    unfold make_summary
    rw [if_neg (by omega)]
  · intro hgt
    have hgt2 : 500 < r.length := hgt
    show make_summary r = r.take 500 ++ "..."
    unfold make_summary
    rw [if_pos (by omega)]

/-- C2 witness: a concrete real-engine run returning the 5-character report
"hello"; the theorem's hypotheses hold there and the summary equals the
fullReport. -/
theorem c2_summary_truncation_witness :
    ((realFinding "q" "quick" "hello" []).fullReport.length ≤ 500 →
      (realFinding "q" "quick" "hello" []).summary =
        (realFinding "q" "quick" "hello" []).fullReport) ∧
    (500 < (realFinding "q" "quick" "hello" []).fullReport.length →
      (realFinding "q" "quick" "hello" []).summary =
        (realFinding "q" "quick" "hello" []).fullReport.take 500 ++ "...") :=
  c2_summary_truncation "q" "quick"
    { writes := [], outcome := .ok (.str "hello", .listv []) } initState
    (realFinding "q" "quick" "hello" []) rfl

/-- C4: when the engine module cannot be imported, `conduct_research` returns
the fallback Finding whose summary and fullReport explicitly label it as
placeholder/test data, whose sources list is the fixed two-element list, whose
sourcesAnalyzed is 2 and whose metadata.mode is "POC"; a run of `main` with
two valid positional inputs and a non-empty API key then succeeds with exit
code 0. -/
theorem c4_engine_unavailable_poc (instructions depth importMsg key : String)
    (st : ProcState)
    (hdepth : depth ∈ (["quick", "moderate", "deep"] : List String))
    (hkey : key ≠ "") :
    (conduct_research instructions depth (.unavailable importMsg) st).1 =
      .ok (pocFinding instructions depth) ∧
    strContains (pocFinding instructions depth).summary "TEST DATA" = true ∧
    strContains (pocFinding instructions depth).summary "POC MODE" = true ∧
    strContains (pocFinding instructions depth).fullReport "simulated data" = true ∧
    (pocFinding instructions depth).sources =
      [{ url := "https://example.com/source1", title := "Example Source 1" },
       { url := "https://example.com/source2", title := "Example Source 2" }] ∧
    (pocFinding instructions depth).sourcesAnalyzed = 2 ∧
    (pocFinding instructions depth).metadata.mode = some "POC" ∧
    (main { argv := ["research_agent.py", instructions, depth],
            openaiApiKey := some key,
            engine := .unavailable importMsg }).exitCode = 0 := by
  refine ⟨rfl, ?_, ?_, ?_, rfl, rfl, rfl, ?_⟩
  · show strContains pocSummary "TEST DATA" = true
    decide
  · show strContains pocSummary "POC MODE" = true
    decide
  · show strContains (pocFullReport instructions depth) "simulated data" = true
    unfold pocFullReport
    apply strContains_append_of_left
    apply strContains_append_of_left
    apply strContains_append_of_left
    apply strContains_append_of_left
    apply strContains_append_of_right
    decide
  · have hkeyEmpty : key.isEmpty = false := by
      cases hb : key.isEmpty with
      | false => rfl
      | true => exact absurd ((String.isEmpty_iff key).mp hb) hkey
    have hmain := main_run_ok
      { argv := ["research_agent.py", instructions, depth],
        openaiApiKey := some key, engine := .unavailable importMsg }
      (by
        show ¬([("research_agent.py" : String), instructions, depth].length < 3)
        have hlen : [("research_agent.py" : String), instructions, depth].length = 3 := rfl
        omega)
      hdepth
      (by show (!key.isEmpty) = true; rw [hkeyEmpty]; rfl)
      (pocFinding instructions depth) rfl
    rw [hmain]

/-- C4 witness: the spec's scenario — instructions "Research backgammon
opening strategies", depth "moderate", engine unavailable, key set. -/
theorem c4_engine_unavailable_poc_witness :
    (conduct_research "Research backgammon opening strategies" "moderate"
        (.unavailable "No module named \x27gpt_researcher\x27") initState).1 =
      .ok (pocFinding "Research backgammon opening strategies" "moderate") ∧
    strContains (pocFinding "Research backgammon opening strategies"
        "moderate").summary "TEST DATA" = true ∧
    strContains (pocFinding "Research backgammon opening strategies"
        "moderate").summary "POC MODE" = true ∧
    strContains (pocFinding "Research backgammon opening strategies"
        "moderate").fullReport "simulated data" = true ∧
    (pocFinding "Research backgammon opening strategies" "moderate").sources =
      [{ url := "https://example.com/source1", title := "Example Source 1" },
       { url := "https://example.com/source2", title := "Example Source 2" }] ∧
    (pocFinding "Research backgammon opening strategies"
        "moderate").sourcesAnalyzed = 2 ∧
    (pocFinding "Research backgammon opening strategies"
        "moderate").metadata.mode = some "POC" ∧
    (main { argv := ["research_agent.py",
                     "Research backgammon opening strategies", "moderate"],
            openaiApiKey := some "sk-test",
            engine := .unavailable "No module named \x27gpt_researcher\x27" }).exitCode
      = 0 :=
  c4_engine_unavailable_poc "Research backgammon opening strategies" "moderate"
    "No module named \x27gpt_researcher\x27" "sk-test" initState
    (by decide) (by decide)

/-- C6: every Finding emitted by a successful `conduct_research` run — real or
fallback — satisfies `sources.length ≤ metadata.maxSources` and
`sources.length ≤ sourcesAnalyzed`; on the real path with an engine-supplied
URL list, `sourcesAnalyzed` is that list's pre-truncation length. -/
theorem c6_source_count_invariants (instructions depth : String)
    (engine : EngineCap) (st : ProcState) (f : Finding)
    (h : (conduct_research instructions depth engine st).1 = .ok f) :
    f.sources.length ≤ f.metadata.maxSources ∧
    f.sources.length ≤ f.sourcesAnalyzed ∧
    (∀ b : EngineBehavior, ∀ r : String, ∀ urls : List PyVal,
      engine = .available b → b.outcome = .ok (.str r, .listv urls) →
      f.sourcesAnalyzed = urls.length) := by
  cases engine with
  | unavailable m =>
    rw [conduct_research_unavailable] at h
    cases h
    refine ⟨?_, Nat.le.refl, ?_⟩
    · show 2 ≤ (get_settings depth).max_sources
      exact get_settings_max_sources_ge_two depth
    · intro b r urls hb
      cases hb
  | available b =>
    obtain ⟨report, sources, r, srcs, hb, hv, hf⟩ :=
      conduct_research_available_ok_inv instructions depth b st f h
    subst hf
    refine ⟨?_, ?_, ?_⟩
    · show (build_sources srcs (get_settings depth).max_sources).length ≤
        (get_settings depth).max_sources
      exact build_sources_length_le_max srcs _
    · show (build_sources srcs (get_settings depth).max_sources).length ≤
        srcs.length
      exact build_sources_length_le_analyzed srcs _
    · intro b2 r2 urls heng hout
      cases heng
      rw [hb] at hout
      cases hout
      show srcs.length = urls.length
      have : validate_results (.str r2) (.listv urls) = .ok (r2, urls) := rfl
      rw [this] at hv
      cases hv
      rfl

/-- C6 witness: a real-engine run returning three URLs at depth "quick". -/
theorem c6_source_count_invariants_witness :
    (realFinding "q" "quick" "rep"
        [.str "a", .str "b", .str "c"]).sources.length ≤
      (realFinding "q" "quick" "rep"
        [.str "a", .str "b", .str "c"]).metadata.maxSources ∧
    (realFinding "q" "quick" "rep"
        [.str "a", .str "b", .str "c"]).sources.length ≤
      (realFinding "q" "quick" "rep"
        [.str "a", .str "b", .str "c"]).sourcesAnalyzed ∧
    (∀ b : EngineBehavior, ∀ r : String, ∀ urls : List PyVal,
      EngineCap.available
          { writes := ["warn"],
            outcome := .ok (.str "rep", .listv [.str "a", .str "b", .str "c"]) } =
        .available b →
      b.outcome = .ok (.str r, .listv urls) →
      (realFinding "q" "quick" "rep"
        [.str "a", .str "b", .str "c"]).sourcesAnalyzed = urls.length) :=
  c6_source_count_invariants "q" "quick"
    (.available { writes := ["warn"],
                  outcome := .ok (.str "rep", .listv [.str "a", .str "b", .str "c"]) })
    initState
    (realFinding "q" "quick" "rep" [.str "a", .str "b", .str "c"]) rfl

/-- C1: every run of the entry point exits 0 or 1; on success exactly one
pretty-printed JSON document — the Finding — reaches standard output and no
JSON document goes to standard error; on every failure nothing reaches
standard output and exactly one ErrorEnvelope JSON document (one of the four
documented shapes) goes to standard error. -/
theorem c1_single_json_document_protocol (inp : MainInput) :
    ((main inp).exitCode = 0 ∨ (main inp).exitCode = 1) ∧
    ((main inp).exitCode = 0 →
      (∃ f : Finding,
        (main inp).finalState.realOut = [OutItem.doc (findingJson f) true]) ∧
      (main inp).stderrDocs = []) ∧
    ((main inp).exitCode = 1 →
      (main inp).finalState.realOut = [] ∧
      ((main inp).stderrDocs = [usageErrorJson] ∨
       (main inp).stderrDocs = [invalidDepthJson (inp.argv.getD 2 "")] ∨
       (main inp).stderrDocs = [missingKeyJson] ∨
       ∃ e : PyExc, (main inp).stderrDocs = [runtimeErrorJson e])) := by
  by_cases h1 : inp.argv.length < 3
  · rw [main_usage inp h1]
    exact ⟨Or.inr rfl, fun h0 => absurd h0 one_ne_zero,
      fun _ => ⟨rfl, Or.inl rfl⟩⟩
  · by_cases h2 : inp.argv.getD 2 "" ∈ (["quick", "moderate", "deep"] : List String)
    · by_cases h3 : envTruthy inp.openaiApiKey = true
      · rcases hr : (conduct_research (inp.argv.getD 1 "") (inp.argv.getD 2 "")
            inp.engine initState).1 with e | f
        · rw [main_run_err inp h1 h2 h3 e hr]
          refine ⟨Or.inr rfl, fun h0 => absurd h0 one_ne_zero, fun _ => ⟨?_, ?_⟩⟩
          · exact (conduct_research_state _ _ _ initState).2
          · exact Or.inr (Or.inr (Or.inr ⟨e, rfl⟩))
        · rw [main_run_ok inp h1 h2 h3 f hr]
          refine ⟨Or.inl rfl, fun _ => ⟨⟨f, ?_⟩, rfl⟩,
            fun h0 => absurd h0 zero_ne_one⟩
          have ht := (conduct_research_state (inp.argv.getD 1 "")
            (inp.argv.getD 2 "") inp.engine initState).1
          have hro := (conduct_research_state (inp.argv.getD 1 "")
            (inp.argv.getD 2 "") inp.engine initState).2
          rw [writeDocStdout_real _ ht, hro]
          rfl
      · have h3f : envTruthy inp.openaiApiKey = false := by
          cases hb : envTruthy inp.openaiApiKey with
          | false => rfl
          | true => exact absurd hb h3
        rw [main_missing_key inp h1 h2 h3f]
        exact ⟨Or.inr rfl, fun h0 => absurd h0 one_ne_zero,
          fun _ => ⟨rfl, Or.inr (Or.inr (Or.inl rfl))⟩⟩
    · rw [main_invalid_depth inp h1 h2]
      exact ⟨Or.inr rfl, fun h0 => absurd h0 one_ne_zero,
        fun _ => ⟨rfl, Or.inr (Or.inl rfl)⟩⟩

theorem conduct_research_validated (i d : String) (w : List String)
    (rp ss : PyVal) (st : ProcState) :
    (conduct_research i d (.available { writes := w, outcome := .ok (rp, ss) }) st).1 =
      match validate_results rp ss with
      | .error e => .error e
      | .ok (r, srcs) => .ok (realFinding i d r srcs) := rfl

set_option maxRecDepth 4096 in
/-- C3 counterexample: for the engine URL list ["", u1, u2, u3, u4, u5] at
depth quick (maxSources 5) the code truncates before filtering and titles by
pre-filter position, producing four sources titled "Source 2".."Source 5" —
not the five sources titled "Source 1".."Source 5" the claim's
filter-first/truncate-second reading requires. -/
theorem c3_counterexample :
    (conduct_research "q" "quick"
        (.available { writes := [], outcome := .ok (.str "r", .listv c3urls) })
        initState).1 =
      Except.ok (realFinding "q" "quick" "r" c3urls) ∧
    (realFinding "q" "quick" "r" c3urls).sources ≠
      claimedSources c3urls (get_settings "quick").max_sources := by
  exact ⟨rfl, by decide⟩

/-- C3 amended: for every engine URL list, the Finding's sources equal the
list truncated to settings.maxSources first, with falsy/empty entries then
discarded, preserving order, each kept entry titled "Source i" where i is its
1-based position in the truncated pre-filter list (discarded positions are
skipped, so titles need not be consecutive). -/
theorem c3_sources_truncate_then_filter (instructions depth report : String)
    (ws : List String) (urls : List PyVal) (st : ProcState) (f : Finding)
    (h : (conduct_research instructions depth
        (.available { writes := ws, outcome := .ok (.str report, .listv urls) })
        st).1 = .ok f) :
    f.sources = amendedSources urls (get_settings depth).max_sources := by
  obtain ⟨rep2, src2, r, srcs, hb, hv, hf⟩ :=
    conduct_research_available_ok_inv _ _ _ _ _ h
  have hb2 : (Except.ok (PyVal.str report, PyVal.listv urls) :
      Except PyExc (PyVal × PyVal)) = .ok (rep2, src2) := hb
  cases hb2
  have hval : validate_results (.str report) (.listv urls) = .ok (report, urls) := rfl
  rw [hval] at hv
  cases hv
  subst hf
  show build_sources urls (get_settings depth).max_sources = _
  exact build_sources_eq_amended urls _

/-- C3 amended witness: the counterexample's URL list, where the amended
description matches the code's output. -/
theorem c3_sources_truncate_then_filter_witness :
    (realFinding "q" "quick" "r" c3urls).sources =
      amendedSources c3urls (get_settings "quick").max_sources :=
  c3_sources_truncate_then_filter "q" "quick" "r" [] c3urls initState
    (realFinding "q" "quick" "r" c3urls) rfl

/-- C8 counterexample: with three positional inputs (an extra argument) the
entry point does not emit the usage envelope — the run proceeds and exits 0 —
so the "exactly two positional inputs" check the claim describes is not what
the code validates (it only requires at least two). -/
theorem c8_counterexample :
    (main { argv := ["research_agent.py", "x", "moderate", "extra"],
            openaiApiKey := some "k",
            engine := .unavailable "m" }).exitCode = 0 ∧
    (main { argv := ["research_agent.py", "x", "moderate", "extra"],
            openaiApiKey := some "k",
            engine := .unavailable "m" }).stderrDocs = [] := by
  exact ⟨rfl, rfl⟩

/-- C8 amended: the entry point validates, in order: at least two positional
inputs are present; the depth is one of quick/moderate/deep; the credential
environment value is truthy. The first failing check short-circuits the rest,
emits exactly the matching ErrorEnvelope sub-shape with exit code 1, and the
engine is never invoked. -/
theorem c8_validation_order_and_shapes (inp : MainInput) :
    (inp.argv.length < 3 →
      main inp = { finalState := initState, stderrDocs := [usageErrorJson],
                   exitCode := 1, engineInvoked := false }) ∧
    (3 ≤ inp.argv.length →
      inp.argv.getD 2 "" ∉ (["quick", "moderate", "deep"] : List String) →
      main inp = { finalState := initState,
                   stderrDocs := [invalidDepthJson (inp.argv.getD 2 "")],
                   exitCode := 1, engineInvoked := false }) ∧
    (3 ≤ inp.argv.length →
      inp.argv.getD 2 "" ∈ (["quick", "moderate", "deep"] : List String) →
      envTruthy inp.openaiApiKey = false →
      main inp = { finalState := initState, stderrDocs := [missingKeyJson],
                   exitCode := 1, engineInvoked := false }) := by
  refine ⟨main_usage inp, ?_, ?_⟩
  · intro hge h2
    exact main_invalid_depth inp (by omega) h2
  · intro hge h2 h3
    exact main_missing_key inp (by omega) h2 h3

/-- C9: after the engine calls, a non-string report raises a ValueError whose
message names the observed type, surfaced by main as the {error, message,
type} envelope with exit 1; an absent (None) source list is treated as empty;
a present non-sequence source list raises a ValueError naming its type. -/
theorem c9_engine_result_validation (instructions depth key : String)
    (ws : List String) (st : ProcState)
    (hdepth : depth ∈ (["quick", "moderate", "deep"] : List String))
    (hkey : key ≠ "") :
    (∀ report sources : PyVal, (∀ s, report ≠ .str s) →
      (conduct_research instructions depth
          (.available { writes := ws, outcome := .ok (report, sources) }) st).1 =
        .error (.valueError
          ("Research report must be string, got " ++ report.typeName)) ∧
      (main { argv := ["research_agent.py", instructions, depth],
              openaiApiKey := some key,
              engine := .available { writes := ws,
                                     outcome := .ok (report, sources) } }).stderrDocs =
        [JVal.jobj
          [("error", .jstr "Research failed"),
           ("message", .jstr
             ("Research report must be string, got " ++ report.typeName)),
           ("type", .jstr "ValueError")]] ∧
      (main { argv := ["research_agent.py", instructions, depth],
              openaiApiKey := some key,
              engine := .available { writes := ws,
                                     outcome := .ok (report, sources) } }).exitCode
        = 1) ∧
    (∀ r : String, ∀ f : Finding,
      (conduct_research instructions depth
          (.available { writes := ws, outcome := .ok (.str r, .pynone) }) st).1 =
        .ok f →
      f.sources = [] ∧ f.sourcesAnalyzed = 0) ∧
    (∀ r : String, ∀ sources : PyVal,
      (∀ xs, sources ≠ .listv xs) → sources ≠ .pynone →
      (conduct_research instructions depth
          (.available { writes := ws, outcome := .ok (.str r, sources) }) st).1 =
        .error (.valueError
          ("Research sources must be list, got " ++ sources.typeName))) := by
  have hkeyEmpty : key.isEmpty = false := by
    cases hb : key.isEmpty with
    | false => rfl
    | true => exact absurd ((String.isEmpty_iff key).mp hb) hkey
  have hlen3 : ¬([("research_agent.py" : String), instructions, depth].length < 3) := by
    have hlen : [("research_agent.py" : String), instructions, depth].length = 3 := rfl
    omega
  refine ⟨?_, ?_, ?_⟩
  · intro report sources hne
    have hval : validate_results report sources =
        .error (.valueError
          ("Research report must be string, got " ++ report.typeName)) := by
      cases report with
      | str s => exact absurd rfl (hne s)
      | int n => rfl
      | listv xs => rfl
      | pynone => rfl
    have hc : (conduct_research instructions depth
        (.available { writes := ws, outcome := .ok (report, sources) }) st).1 =
        .error (.valueError
          ("Research report must be string, got " ++ report.typeName)) := by
      rw [conduct_research_validated, hval]
    have hc0 : (conduct_research instructions depth
        (.available { writes := ws, outcome := .ok (report, sources) })
        initState).1 =
        .error (.valueError
          ("Research report must be string, got " ++ report.typeName)) := by
      rw [conduct_research_validated, hval]
    refine ⟨hc, ?_, ?_⟩
    · rw [main_run_err
        { argv := ["research_agent.py", instructions, depth],
          openaiApiKey := some key,
          engine := .available { writes := ws, outcome := .ok (report, sources) } }
        hlen3 hdepth
        (by show (!key.isEmpty) = true; rw [hkeyEmpty]; rfl)
        (.valueError ("Research report must be string, got " ++ report.typeName))
        hc0]
      rfl
    · rw [main_run_err
        { argv := ["research_agent.py", instructions, depth],
          openaiApiKey := some key,
          engine := .available { writes := ws, outcome := .ok (report, sources) } }
        hlen3 hdepth
        (by show (!key.isEmpty) = true; rw [hkeyEmpty]; rfl)
        (.valueError ("Research report must be string, got " ++ report.typeName))
        hc0]
  · intro r f h
    have hval : validate_results (.str r) .pynone = .ok (r, []) := rfl
    rw [conduct_research_validated, hval] at h
    cases h
    refine ⟨?_, rfl⟩
    show build_sources [] (get_settings depth).max_sources = []
    simp [build_sources]
  · intro r sources hnl hnn
    have hval : validate_results (.str r) sources =
        .error (.valueError
          ("Research sources must be list, got " ++ sources.typeName)) := by
      cases sources with
      | str s => rfl
      | int n => rfl
      | listv xs => exact absurd rfl (hnl xs)
      | pynone => exact absurd rfl hnn
    rw [conduct_research_validated, hval]

/-- C9 witness: concrete inputs — an integer report observed as
`<class 'int'>`, a None source list, and an integer source list. -/
theorem c9_engine_result_validation_witness :
    (∀ report sources : PyVal, (∀ s, report ≠ .str s) →
      (conduct_research "q" "moderate"
          (.available { writes := [], outcome := .ok (report, sources) })
          initState).1 =
        .error (.valueError
          ("Research report must be string, got " ++ report.typeName)) ∧
      (main { argv := ["research_agent.py", "q", "moderate"],
              openaiApiKey := some "sk-test",
              engine := .available { writes := [],
                                     outcome := .ok (report, sources) } }).stderrDocs =
        [JVal.jobj
          [("error", .jstr "Research failed"),
           ("message", .jstr
             ("Research report must be string, got " ++ report.typeName)),
           ("type", .jstr "ValueError")]] ∧
      (main { argv := ["research_agent.py", "q", "moderate"],
              openaiApiKey := some "sk-test",
              engine := .available { writes := [],
                                     outcome := .ok (report, sources) } }).exitCode
        = 1) ∧
    (∀ r : String, ∀ f : Finding,
      (conduct_research "q" "moderate"
          (.available { writes := [], outcome := .ok (.str r, .pynone) })
          initState).1 = .ok f →
      f.sources = [] ∧ f.sourcesAnalyzed = 0) ∧
    (∀ r : String, ∀ sources : PyVal,
      (∀ xs, sources ≠ .listv xs) → sources ≠ .pynone →
      (conduct_research "q" "moderate"
          (.available { writes := [], outcome := .ok (.str r, sources) })
          initState).1 =
        .error (.valueError
          ("Research sources must be list, got " ++ sources.typeName))) :=
  c9_engine_result_validation "q" "moderate" "sk-test" [] initState
    (by decide) (by decide)

end ResearchAgent
